import Mathlib

/-!
Verification development for the Beamio worker module
(`src/Beamio/Resources/BeamioWorker.py`).

The module holds process-wide mutable state (`_DEVICE`, `_LAST_ERROR`) and
three operations: `connect` (key resolution + transport handshake),
`scan_url` (HTML catalog scan), and `install_apk` (a generator yielding
progress milestones). External collaborators (the filesystem, the keygen
primitive, the RSA signer, the transport handshake, HTTP fetches, the HTML
tokenizer) are modelled as explicit state and environments; the module's
own control flow, string handling and state updates are embedded from the
source. A generator is modelled by the full list of strings it yields.
-/

set_option autoImplicit false

namespace Beamio

/-! ### Python string / path helpers used by the source -/

/-- Lowercase a string character by character (Python `str.lower` on ASCII). -/
def strLower (s : String) : String :=
  String.mk (s.data.map Char.toLower)

/-- Python `str.startswith`, computed on the character list. -/
def strStartsWith (s pre : String) : Bool :=
  pre.data.isPrefixOf s.data

/-- Python `str.endswith`, computed on the character list. -/
def strEndsWith (s post : String) : Bool :=
  post.data.isSuffixOf s.data

/-- Index of the last `/` in a character list (Python `str.rfind`). -/
def lastSlash : List Char → Option Nat
  | [] => none
  | c :: rest =>
    match lastSlash rest with
    | some i => some (i + 1)
    | none => if c = '/' then some 0 else none

/-- Remove trailing `/` characters (Python `str.rstrip` with a slash). -/
def dropTrailingSlashes (l : List Char) : List Char :=
  (l.reverse.dropWhile (fun c => c = '/')).reverse

/-- Python `os.path.dirname` for POSIX paths. -/
def dirname (s : String) : String :=
  match lastSlash s.data with
  | none => ""
  | some i =>
    let head := s.data.take (i + 1)
    if head.all (fun c => c = '/') then String.mk head
    else String.mk (dropTrailingSlashes head)

/-- Python `os.path.basename` for POSIX paths. -/
def basename (s : String) : String :=
  match lastSlash s.data with
  | none => s
  | some i => String.mk (s.data.drop (i + 1))

/-- Python `os.path.join` for two POSIX path components. -/
def pathJoin (a b : String) : String :=
  if strStartsWith b "/" then b
  else if a = "" || strEndsWith a "/" then a ++ b
  else a ++ "/" ++ b

/-- Python `str.strip` (trim leading and trailing whitespace). -/
def pyStrip (s : String) : String :=
  String.mk (((s.data.dropWhile Char.isWhitespace).reverse.dropWhile
    Char.isWhitespace).reverse)

/-! ### Filesystem model

A flat model of the paths the worker touches: a list of existing
directories and an association list of file contents (most recent write
first). -/

structure FS where
  dirs : List String
  files : List (String × String)
deriving DecidableEq, Repr

def FS.isdir (fs : FS) (p : String) : Bool :=
  fs.dirs.contains p

def FS.readFile (fs : FS) (p : String) : Option String :=
  match fs.files.find? (fun q => q.1 == p) with
  | some q => some q.2
  | none => none

def FS.pathExists (fs : FS) (p : String) : Bool :=
  fs.dirs.contains p || fs.files.any (fun q => q.1 == p)

def FS.makedirs (fs : FS) (p : String) : FS :=
  { fs with dirs := p :: fs.dirs }

def FS.writeFile (fs : FS) (p c : String) : FS :=
  { fs with files := (p, c) :: fs.files }

def FS.removeFile (fs : FS) (p : String) : FS :=
  { fs with files := fs.files.filter (fun q => q.1 ≠ p) }

def FS.removeDir (fs : FS) (p : String) : FS :=
  { fs with dirs := fs.dirs.filter (fun q => q ≠ p) }

/-! ### Worker state and observable events -/

/-- An opaque transport device handle (`AdbDeviceTcp` instance). -/
structure Device where
  id : Nat
deriving DecidableEq, Repr

/-- The module-level mutable state: `_DEVICE`, `_LAST_ERROR`, plus the
filesystem the worker reads and writes. -/
structure WorkerState where
  fs : FS
  device : Option Device
  lastError : String
deriving DecidableEq, Repr

/-- Source `last_error()`: read the `_LAST_ERROR` slot. -/
def last_error (s : WorkerState) : String :=
  s.lastError

/-- Observable side effects, recorded as a trace: writes to `_LAST_ERROR`
(`_set_error`), filesystem access during key resolution, a transport
handshake attempt, and an HTTP request. -/
inductive Event where
  | errWrite (msg : String)
  | fsAccess
  | netConnect
  | netFetch
deriving DecidableEq, Repr

/-! ### Key resolution and connect -/

/-- Outcomes of the external collaborators a `connect` call consults:
`os.makedirs`, `adb_shell.auth.keygen.keygen` (the pair it would write),
`PythonRSASigner` construction, and the `device.connect` handshake. -/
structure ConnectEnv where
  mkdirOutcome : Except String Unit
  keygenOutcome : Except String (String × String)
  signer : String → String → Except String Unit
  handshake : Except String Unit
  newDevice : Device

/-- The private-key path `_resolve_key_path` computes before touching the
filesystem: `key_path/adbkey` when `key_path` is a directory, else
`key_path` itself. -/
def resolvedPathOf (fs : FS) (key : String) : String :=
  if fs.isdir key then pathJoin key "adbkey" else key

/-- The directory `_resolve_key_path` ensures exists:
`os.path.dirname(resolved_path) or "."`. -/
def madeDirOf (fs : FS) (key : String) : String :=
  let dn := dirname (resolvedPathOf fs key)
  if dn = "" then "." else dn

/-- Source `_resolve_key_path` (lines 22-32): pick the key file path, create
its parent directory, and run `keygen` when the file is absent. Returns the
resolved path, the updated filesystem and whether `keygen` ran; an error
carries the message and the filesystem as mutated so far. -/
def resolve_key_path (env : ConnectEnv) (key : String) (fs : FS) :
    Except (String × FS) (String × FS × Bool) :=
  let resolved := resolvedPathOf fs key
  match env.mkdirOutcome with
  | .error e => .error (e, fs)
  | .ok _ =>
    let fs1 := fs.makedirs (madeDirOf fs key)
    if fs1.pathExists resolved then .ok (resolved, fs1, false)
    else
      match env.keygenOutcome with
      | .error e => .error (e, fs1)
      | .ok pk =>
        .ok (resolved, (fs1.writeFile resolved pk.1).writeFile
          (resolved ++ ".pub") pk.2, true)

/-- Result of a successful credential resolution: the filesystem after it,
the resolved private-key path, whether `keygen` ran, and the two key file
contents read back (connect lines 46-50). -/
structure ResolveOut where
  fs : FS
  resolved : String
  keygenRan : Bool
  priv : String
  pub : String
deriving DecidableEq, Repr

/-- Key resolution as `connect` performs it: `_resolve_key_path` followed by
reading the private key file and its `.pub` companion as text. -/
def resolveCredentials (env : ConnectEnv) (key : String) (fs : FS) :
    Except (String × FS) ResolveOut :=
  match resolve_key_path env key fs with
  | .error ef => .error ef
  | .ok (resolved, fs1, ran) =>
    match fs1.readFile resolved with
    | none => .error ("No such file or directory: " ++ resolved, fs1)
    | some priv =>
      match fs1.readFile (resolved ++ ".pub") with
      | none => .error ("No such file or directory: " ++ resolved ++ ".pub", fs1)
      | some pub => .ok ⟨fs1, resolved, ran, priv, pub⟩

/-- The body of `connect`'s `try` block after the loopback check: resolve
credentials, build the signer, attempt the handshake. Returns the outcome,
the filesystem afterwards, and the trace of external accesses. -/
def connectAttempt (env : ConnectEnv) (key : String) (fs : FS) :
    Except String Device × FS × List Event :=
  match resolveCredentials env key fs with
  | .error ef => (.error ef.1, ef.2, [Event.fsAccess])
  | .ok r =>
    match env.signer r.pub r.priv with
    | .error e => (.error e, r.fs, [Event.fsAccess])
    | .ok _ =>
      match env.handshake with
      | .error e => (.error e, r.fs, [Event.fsAccess, Event.netConnect])
      | .ok _ => (.ok env.newDevice, r.fs, [Event.fsAccess, Event.netConnect])

/-- Source `connect` (lines 35-59). Loopback short-circuits to the
simulation string with no state change and no external activity; otherwise
`_LAST_ERROR` is cleared, the attempt runs, and either the new device is
installed in `_DEVICE` or the error message is stored and reported. -/
def connect (env : ConnectEnv) (ip key : String) (s : WorkerState) :
    String × WorkerState × List Event :=
  if ip = "127.0.0.1" then ("Connected (Simulation)", s, [])
  else
    let a := connectAttempt env key s.fs
    match a.1 with
    | .error e =>
      ("Connection failed: " ++ e,
       { s with fs := a.2.1, lastError := e },
       Event.errWrite "" :: a.2.2 ++ [Event.errWrite e])
    | .ok dev =>
      ("Connected",
       { s with fs := a.2.1, lastError := "", device := some dev },
       Event.errWrite "" :: a.2.2)

/-! ### Catalog scan -/

/-- A catalog entry as `scan_url` records it: `{"name": ..., "url": ...}`. -/
structure CatalogEntry where
  name : String
  url : String
deriving DecidableEq, Repr

/-- Events the stdlib HTML tokenizer feeds to the `_ApkLinkParser` handlers:
a start tag with its attribute list (values may be absent), character data,
and an end tag. -/
inductive HtmlEvent where
  | starttag (tag : String) (attrs : List (String × Option String))
  | data (s : String)
  | endtag (tag : String)
deriving DecidableEq, Repr

/-- Python `dict(attrs).get("href")`: the last `href` attribute wins, and a
valueless attribute yields nothing. -/
def hrefOf (attrs : List (String × Option String)) : Option String :=
  match attrs.reverse.find? (fun p => p.1 == "href") with
  | some p => p.2
  | none => none

/-- The guard `href and href.lower().endswith(".apk")` from
`handle_starttag`. -/
def isApkHref (h : String) : Bool :=
  h ≠ "" && strEndsWith (strLower h) ".apk"

/-- Mutable fields of the `_ApkLinkParser` instance. -/
structure ScanState where
  currentHref : Option String
  currentText : List String
  items : List CatalogEntry
deriving Repr

/-- Source `handle_starttag`: arm collection when an anchor carries an
`.apk` href (case-insensitively). -/
def handleStarttag (st : ScanState) (tag : String)
    (attrs : List (String × Option String)) : ScanState :=
  if strLower tag ≠ "a" then st
  else
    match hrefOf attrs with
    | some href =>
      if isApkHref href then { st with currentHref := some href, currentText := [] }
      else st
    | none => st

/-- Source `handle_data`: accumulate text while an `.apk` anchor is open. -/
def handleData (st : ScanState) (d : String) : ScanState :=
  match st.currentHref with
  | some _ => { st with currentText := st.currentText ++ [d] }
  | none => st

/-- Source `handle_endtag`: on `</a>` with an armed href, record the entry
(trimmed text, or the href basename when empty; href resolved against the
base URL) and reset. `uj` is the external `urllib.parse.urljoin`. -/
def handleEndtag (uj : String → String → String) (url : String)
    (st : ScanState) (tag : String) : ScanState :=
  if strLower tag ≠ "a" then st
  else
    match st.currentHref with
    | none => st
    | some href =>
      let name := pyStrip (String.join st.currentText)
      let entry : CatalogEntry :=
        ⟨if name = "" then basename href else name, uj url href⟩
      { st with items := st.items ++ [entry], currentHref := none,
                currentText := [] }

/-- One tokenizer event dispatched to the matching handler. -/
def scanStep (uj : String → String → String) (url : String)
    (st : ScanState) : HtmlEvent → ScanState
  | .starttag t a => handleStarttag st t a
  | .data d => handleData st d
  | .endtag t => handleEndtag uj url st t

/-- `parser.feed(html)` over an already-tokenized document: fold the
handlers over the event stream from a fresh parser and read `items`. -/
def scanEvents (uj : String → String → String) (url : String)
    (events : List HtmlEvent) : List CatalogEntry :=
  (events.foldl (scanStep uj url) ⟨none, [], []⟩).items

/-- External collaborators of `scan_url`: the HTTP fetch+decode, the HTML
tokenizer, and `urljoin`. -/
structure ScanEnv where
  fetch : Except String String
  parse : String → Except String (List HtmlEvent)
  urljoin : String → String → String

/-- Source `scan_url` (lines 62-108): clear `_LAST_ERROR`, fetch and parse;
any failure is swallowed into an empty list with the message stored as the
last error. Returns the entries and the final `_LAST_ERROR` value. -/
def scan_url (env : ScanEnv) (url : String) : List CatalogEntry × String :=
  match env.fetch with
  | .error e => ([], e)
  | .ok html =>
    match env.parse html with
    | .error e => ([], e)
    | .ok events => (scanEvents env.urljoin url events, "")

/-! ### Install pipeline -/

/-- External collaborators of `install_apk`: `tempfile.mkdtemp`, the
streamed download (full body on success), the device-side install, and
whether the two cleanup calls succeed (an `OSError` there is swallowed). -/
structure InstallEnv where
  mkdtempOutcome : Except String String
  download : Except String String
  install : Device → Except String Unit
  removeOk : Bool
  rmdirOk : Bool

/-- Source `install_apk` (lines 111-143), a generator modelled by the full
list of yielded strings, the final state and the event trace. Snapshot the
device under the lock (yield `NoDevice` and stop when absent), then yield
the download / install / complete milestones, with any exception turned
into one terminal failure milestone. -/
def install_apk (env : InstallEnv) (_url : String) (s : WorkerState) :
    List String × WorkerState × List Event :=
  let s0 := { s with lastError := "" }
  match s0.device with
  | none => (["No device connected."], s0, [Event.errWrite ""])
  | some device =>
    match env.mkdtempOutcome with
    | .error e =>
      (["Downloading APK...", "Install failed: " ++ e],
       { s0 with lastError := e },
       [Event.errWrite "", Event.errWrite e])
    | .ok tempDir =>
      let fs1 := s0.fs.makedirs tempDir
      let apkPath := pathJoin tempDir "payload.apk"
      match env.download with
      | .error e =>
        (["Downloading APK...", "Install failed: " ++ e],
         { s0 with fs := fs1, lastError := e },
         [Event.errWrite "", Event.netFetch, Event.errWrite e])
      | .ok content =>
        let fs2 := fs1.writeFile apkPath content
        match env.install device with
        | .error e =>
          (["Downloading APK...", "Installing APK...", "Install failed: " ++ e],
           { s0 with fs := fs2, lastError := e },
           [Event.errWrite "", Event.netFetch, Event.errWrite e])
        | .ok _ =>
          let fs3 := if env.removeOk then fs2.removeFile apkPath else fs2
          let fs4 := if env.removeOk && env.rmdirOk then fs3.removeDir tempDir
                     else fs3
          (["Downloading APK...", "Installing APK...", "Install complete."],
           { s0 with fs := fs4 },
           [Event.errWrite "", Event.netFetch])

/-! ### Basic filesystem lemmas -/

theorem FS.readFile_makedirs (fs : FS) (q p : String) :
    (fs.makedirs q).readFile p = fs.readFile p := rfl

theorem FS.dirs_writeFile (fs : FS) (p c : String) :
    (fs.writeFile p c).dirs = fs.dirs := rfl

theorem FS.readFile_writeFile_self (fs : FS) (p c : String) :
    (fs.writeFile p c).readFile p = some c := by
  simp [FS.writeFile, FS.readFile]

theorem FS.readFile_writeFile_ne (fs : FS) (p q c : String) (h : q ≠ p) :
    (fs.writeFile q c).readFile p = fs.readFile p := by
  simp [FS.writeFile, FS.readFile, List.find?_cons_of_neg, h]

theorem FS.pathExists_of_readFile (fs : FS) (p c : String)
    (h : fs.readFile p = some c) : fs.pathExists p = true := by
  unfold FS.readFile at h
  cases hf : fs.files.find? (fun q => q.1 == p) with
  | none => rw [hf] at h; cases h
  | some q =>
    have hq := List.find?_some hf
    have hmem := List.mem_of_find?_eq_some hf
    unfold FS.pathExists
    have : fs.files.any (fun r => r.1 == p) = true :=
      List.any_eq_true.mpr ⟨q, hmem, hq⟩
    simp [this]

theorem FS.pathExists_makedirs_of (fs : FS) (q p : String)
    (h : fs.pathExists p = true) : (fs.makedirs q).pathExists p = true := by
  simp only [FS.pathExists, FS.makedirs, List.contains_cons, Bool.or_eq_true] at h ⊢
  tauto

theorem FS.readFile_removeFile_self (fs : FS) (p : String) :
    (fs.removeFile p).readFile p = none := by
  have h : (fs.files.filter (fun q => q.1 ≠ p)).find? (fun q => q.1 == p) = none := by
    rw [List.find?_eq_none]
    intro x hx
    rcases List.mem_filter.mp hx with ⟨_, hne⟩
    simp only [decide_eq_true_eq] at hne
    simp [hne]
  unfold FS.removeFile FS.readFile
  simp only [h]

theorem FS.isdir_removeDir_self (fs : FS) (p : String) :
    (fs.removeDir p).isdir p = false := by
  simp only [FS.removeDir, FS.isdir]
  rw [List.contains_eq_any_beq]
  rw [List.any_eq_false]
  intro x hx
  rcases List.mem_filter.mp hx with ⟨_, hne⟩
  simp only [decide_eq_true_eq] at hne
  simp [Ne.symm hne]

/-! ### Concrete fixtures used by witnesses and counterexamples -/

/-- A filesystem already holding the key pair at path `k`. -/
def keyedFS : FS :=
  ⟨[], [("k", "PRIV"), ("k.pub", "PUB")]⟩

/-- A worker state with an active device and a stale last error. -/
def connectedState : WorkerState :=
  ⟨keyedFS, some ⟨3⟩, "old failure"⟩

/-- The same state with no active device. -/
def idleState : WorkerState :=
  ⟨keyedFS, none, "old failure"⟩

/-- A connect environment whose handshake fails with message `boom`. -/
def failHandshakeEnv : ConnectEnv :=
  ⟨.ok (), .ok ("GP", "GQ"), fun _ _ => .ok (), .error "boom", ⟨7⟩⟩

/-- A connect environment in which every collaborator succeeds. -/
def okConnectEnv : ConnectEnv :=
  ⟨.ok (), .ok ("GP", "GQ"), fun _ _ => .ok (), .ok (), ⟨7⟩⟩

/-- An install environment in which every collaborator succeeds. -/
def okInstallEnv : InstallEnv :=
  ⟨.ok "tmp/beamio_x", .ok "APKBYTES", fun _ => .ok (), true, true⟩

/-- An install environment whose streamed download fails with `netdown`. -/
def failDownloadEnv : InstallEnv :=
  ⟨.ok "tmp/beamio_x", .error "netdown", fun _ => .ok (), true, true⟩

/-- A scan environment whose fetch fails with `http 500`. -/
def failFetchEnv : ScanEnv :=
  ⟨.error "http 500", fun _ => .ok [], fun b h => b ++ "|" ++ h⟩

/-- A scan environment returning a fixed two-anchor document. -/
def twoAnchorEnv : ScanEnv :=
  ⟨.ok "page",
   fun _ => .ok
     [.starttag "a" [("href", some "x.apk")], .data "Foo", .endtag "a",
      .starttag "a" [("href", some "y.txt")], .data "Bar", .endtag "a"],
   fun b h => b ++ "|" ++ h⟩

/-! ### Claim C2 -/

/-- C2: for every key path, environment and prior state, `connect` with the
loopback address returns the string `Connected (Simulation)`, leaves the
state (session slot, last error, filesystem) exactly as it was, and
performs no external activity at all (empty event trace). -/
theorem connect_loopback_simulation (env : ConnectEnv) (key : String)
    (s : WorkerState) :
    connect env "127.0.0.1" key s = ("Connected (Simulation)", s, []) := by
  simp [connect]

/-! ### Claim C10 -/

/-- C10: a loopback `connect` leaves the module state untouched: the device
slot and the value read by `last_error` keep their prior values and no
`_set_error` write happens, whereas every non-loopback `connect` begins by
writing the empty string into the last-error slot. -/
theorem connect_loopback_frame :
    (∀ (env : ConnectEnv) (key : String) (s : WorkerState),
      (connect env "127.0.0.1" key s).2.1.device = s.device ∧
      last_error (connect env "127.0.0.1" key s).2.1 = last_error s ∧
      (connect env "127.0.0.1" key s).2.2 = []) ∧
    (∀ (env : ConnectEnv) (ip key : String) (s : WorkerState),
      ip ≠ "127.0.0.1" →
      (connect env ip key s).2.2.head? = some (Event.errWrite "")) := by
  constructor
  · intro env key s
    simp [connect, last_error]
  · intro env ip key s h
    unfold connect
    rw [if_neg h]
    cases ha : (connectAttempt env key s.fs).1 <;> simp [ha]

/-- Witness for C10 at concrete inputs. -/
theorem connect_loopback_frame_witness :
    ((connect failHandshakeEnv "127.0.0.1" "k" connectedState).2.1.device =
        connectedState.device ∧
      last_error (connect failHandshakeEnv "127.0.0.1" "k" connectedState).2.1 =
        last_error connectedState ∧
      (connect failHandshakeEnv "127.0.0.1" "k" connectedState).2.2 = []) ∧
    (connect failHandshakeEnv "10.0.0.5" "k" connectedState).2.2.head? =
      some (Event.errWrite "") :=
  ⟨connect_loopback_frame.1 failHandshakeEnv "k" connectedState,
   connect_loopback_frame.2 failHandshakeEnv "10.0.0.5" "k" connectedState
     (by decide)⟩

/-! ### Claim C5 -/

/-- C5: when no session is active at the lock-guarded snapshot,
`install_apk` yields exactly the `NoDevice` milestone and performs no
network request. -/
theorem install_apk_no_device (env : InstallEnv) (url : String)
    (s : WorkerState) (h : s.device = none) :
    (install_apk env url s).1 = ["No device connected."] ∧
    Event.netFetch ∉ (install_apk env url s).2.2 := by
  simp [install_apk, h]

/-- Witness for C5 at concrete inputs. -/
theorem install_apk_no_device_witness :
    (install_apk okInstallEnv "http://s/x.apk" idleState).1 =
      ["No device connected."] ∧
    Event.netFetch ∉ (install_apk okInstallEnv "http://s/x.apk" idleState).2.2 :=
  install_apk_no_device okInstallEnv "http://s/x.apk" idleState (by decide)

/-! ### Claim C8 -/

/-- C8: `scan_url` returns the empty list whenever the fetch or the parse
fails, storing the failure message as the last error; being a total
function of its environment, no exception ever propagates to the caller. -/
theorem scan_url_failure_empty (env : ScanEnv) (url e : String) :
    (env.fetch = .error e → scan_url env url = ([], e)) ∧
    (∀ html, env.fetch = .ok html → env.parse html = .error e →
      scan_url env url = ([], e)) := by
  constructor
  · intro h
    simp [scan_url, h]
  · intro html h1 h2
    simp [scan_url, h1, h2]

/-- Witness for C8 at concrete inputs. -/
theorem scan_url_failure_empty_witness :
    scan_url failFetchEnv "http://s/" = ([], "http 500") :=
  (scan_url_failure_empty failFetchEnv "http://s/" "http 500").1 rfl

/-! ### Claim C3 -/

/-- C3: with an active session and a download and device install that both
succeed, `install_apk` yields exactly the three milestones in order, and
afterwards the temporary APK file is gone and its containing directory no
longer exists. -/
theorem install_apk_success (env : InstallEnv) (url : String)
    (s : WorkerState) (d : Device) (td content : String)
    (hd : s.device = some d)
    (hm : env.mkdtempOutcome = .ok td)
    (hdl : env.download = .ok content)
    (hi : env.install d = .ok ())
    (hr : env.removeOk = true)
    (hrm : env.rmdirOk = true) :
    (install_apk env url s).1 =
      ["Downloading APK...", "Installing APK...", "Install complete."] ∧
    (install_apk env url s).2.1.fs.readFile (pathJoin td "payload.apk") = none ∧
    (install_apk env url s).2.1.fs.isdir td = false := by
  simp only [install_apk, hd, hm, hdl, hi, hr, hrm, Bool.and_self, if_true]
  refine ⟨trivial, ?_, ?_⟩
  · exact FS.readFile_removeFile_self _ _
  · exact FS.isdir_removeDir_self _ _

/-- Witness for C3 at concrete inputs. -/
theorem install_apk_success_witness :
    (install_apk okInstallEnv "http://s/x.apk" connectedState).1 =
      ["Downloading APK...", "Installing APK...", "Install complete."] ∧
    (install_apk okInstallEnv "http://s/x.apk" connectedState).2.1.fs.readFile
      (pathJoin "tmp/beamio_x" "payload.apk") = none ∧
    (install_apk okInstallEnv "http://s/x.apk" connectedState).2.1.fs.isdir
      "tmp/beamio_x" = false :=
  install_apk_success okInstallEnv "http://s/x.apk" connectedState ⟨3⟩
    "tmp/beamio_x" "APKBYTES" rfl rfl rfl rfl rfl rfl

/-! ### Claim C4 -/

theorem installFailed_ne_installing (e : String) :
    "Install failed: " ++ e ≠ "Installing APK..." := by
  intro h
  have h2 : ("Install failed: " ++ e).data.take 16 =
      ("Installing APK..." : String).data.take 16 := by rw [h]
  rw [String.data_append] at h2
  rw [List.take_left'
    (show ("Install failed: " : String).data.length = 16 by decide)] at h2
  exact absurd h2 (by decide)

/-- C4: once the session snapshot is taken, a failure at any later stage
ends the yielded sequence with a single terminal failure milestone carrying
the exception message and nothing after it; in particular a failing
download yields exactly `[Downloading, Failed]` and the `Installing`
milestone never appears. -/
theorem install_apk_failure_terminal (env : InstallEnv) (url : String)
    (s : WorkerState) (d : Device) (td content e : String)
    (hd : s.device = some d) :
    (env.mkdtempOutcome = .error e →
      (install_apk env url s).1 =
        ["Downloading APK...", "Install failed: " ++ e] ∧
      "Installing APK..." ∉ (install_apk env url s).1) ∧
    (env.mkdtempOutcome = .ok td → env.download = .error e →
      (install_apk env url s).1 =
        ["Downloading APK...", "Install failed: " ++ e] ∧
      "Installing APK..." ∉ (install_apk env url s).1) ∧
    (env.mkdtempOutcome = .ok td → env.download = .ok content →
      env.install d = .error e →
      (install_apk env url s).1 =
        ["Downloading APK...", "Installing APK...", "Install failed: " ++ e]) := by
  refine ⟨?_, ?_, ?_⟩
  · intro hm
    simp only [install_apk, hd, hm]
    refine ⟨trivial, ?_⟩
    intro hmem
    rcases List.mem_cons.mp hmem with h1 | h1
    · exact absurd h1.symm (by decide)
    · rcases List.mem_singleton.mp h1 with h2
      exact installFailed_ne_installing e h2.symm
  · intro hm hdl
    simp only [install_apk, hd, hm, hdl]
    refine ⟨trivial, ?_⟩
    intro hmem
    rcases List.mem_cons.mp hmem with h1 | h1
    · exact absurd h1.symm (by decide)
    · rcases List.mem_singleton.mp h1 with h2
      exact installFailed_ne_installing e h2.symm
  · intro hm hdl hi
    simp only [install_apk, hd, hm, hdl, hi]

/-- Witness for C4 at concrete inputs. -/
theorem install_apk_failure_terminal_witness :
    (install_apk failDownloadEnv "http://s/x.apk" connectedState).1 =
      ["Downloading APK...", "Install failed: " ++ "netdown"] ∧
    "Installing APK..." ∉
      (install_apk failDownloadEnv "http://s/x.apk" connectedState).1 :=
  ((install_apk_failure_terminal failDownloadEnv "http://s/x.apk"
      connectedState ⟨3⟩ "tmp/beamio_x" "unused" "netdown" rfl).2.1) rfl rfl

/-! ### Parser-fold lemmas for the scan claims -/

theorem strLower_a : strLower "a" = "a" := by decide

/-- An event that arms the collector: an anchor start tag whose effective
href passes the case-insensitive `.apk` guard. -/
def armsApk : HtmlEvent → Bool
  | .starttag tag attrs =>
    strLower tag == "a" &&
      (match hrefOf attrs with
       | some h => isApkHref h
       | none => false)
  | _ => false

theorem scanStep_starttag_apk (uj : String → String → String) (url : String)
    (st : ScanState) (href : String) (h : isApkHref href = true) :
    scanStep uj url st (.starttag "a" [("href", some href)]) =
      { st with currentHref := some href, currentText := [] } := by
  simp [scanStep, handleStarttag, hrefOf, strLower_a, h]

theorem foldl_data_arm (uj : String → String → String) (url h0 : String)
    (texts acc : List String) (items : List CatalogEntry) :
    (texts.map HtmlEvent.data).foldl (scanStep uj url)
        ⟨some h0, acc, items⟩ = ⟨some h0, acc ++ texts, items⟩ := by
  induction texts generalizing acc with
  | nil => simp
  | cons t ts ih =>
    simp only [List.map_cons, List.foldl_cons, scanStep, handleData]
    rw [ih (acc ++ [t])]
    simp

theorem scanStep_id_of_not_armed (uj : String → String → String)
    (url : String) (st : ScanState) (e : HtmlEvent)
    (hc : st.currentHref = none) (h : armsApk e = false) :
    scanStep uj url st e = st := by
  cases e with
  | starttag t a =>
    by_cases ht : strLower t = "a"
    · have h2 : (match hrefOf a with
        | some hr => isApkHref hr
        | none => false) = false := by
        simpa [armsApk, ht] using h
      cases hh : hrefOf a with
      | none => simp [scanStep, handleStarttag, ht, hh]
      | some hr =>
        rw [hh] at h2
        have h3 : isApkHref hr = false := by simpa using h2
        simp [scanStep, handleStarttag, ht, hh, h3]
    · simp [scanStep, handleStarttag, ht]
  | data d => simp [scanStep, handleData, hc]
  | endtag t =>
    by_cases ht : strLower t = "a"
    · simp [scanStep, handleEndtag, ht, hc]
    · simp [scanStep, handleEndtag, ht]

theorem foldl_scanStep_fixed (uj : String → String → String) (url : String)
    (events : List HtmlEvent) (st : ScanState)
    (hc : st.currentHref = none) (h : ∀ e ∈ events, armsApk e = false) :
    events.foldl (scanStep uj url) st = st := by
  induction events with
  | nil => rfl
  | cons e es ih =>
    rw [List.foldl_cons,
      scanStep_id_of_not_armed uj url st e hc (h e (by simp))]
    exact ih (fun x hx => h x (by simp [hx]))

/-- A scan environment returning a document with no `.apk` anchors. -/
def txtOnlyEnv : ScanEnv :=
  ⟨.ok "page",
   fun _ => .ok
     [.starttag "a" [("href", some "y.txt")], .data "Bar", .endtag "a"],
   fun b h => b ++ "|" ++ h⟩

/-- A scan environment returning a two-`.apk`-anchor document. -/
def twoApkEnv : ScanEnv :=
  ⟨.ok "page",
   fun _ => .ok
     [.starttag "a" [("href", some "x.apk")], .data "Foo", .endtag "a",
      .starttag "a" [("href", some "z.apk")], .data "Baz", .endtag "a"],
   fun b h => b ++ "|" ++ h⟩

/-- A scan environment returning one `.apk` anchor with no text. -/
def emptyTextEnv : ScanEnv :=
  ⟨.ok "page",
   fun _ => .ok [.starttag "a" [("href", some "app.apk")], .endtag "a"],
   fun b h => b ++ "|" ++ h⟩

/-! ### Claim C7 -/

/-- C7: `scan_url` records entries only for anchors whose href passes the
case-insensitive `.apk` filter, resolves each href against the base URL and
keeps document order: the two-anchor `Foo`/`Bar` document yields exactly the
one `Foo` entry with the resolved URL of `x.apk`; a document with no
`.apk`-arming anchor yields nothing; and a document with two `.apk` anchors
yields both entries in document order. -/
theorem scan_url_apk_filter :
    (∀ (env : ScanEnv) (url html : String),
      env.fetch = .ok html →
      env.parse html = .ok
        [.starttag "a" [("href", some "x.apk")], .data "Foo", .endtag "a",
         .starttag "a" [("href", some "y.txt")], .data "Bar", .endtag "a"] →
      (scan_url env url).1 = [⟨"Foo", env.urljoin url "x.apk"⟩]) ∧
    (∀ (env : ScanEnv) (url html : String) (events : List HtmlEvent),
      env.fetch = .ok html → env.parse html = .ok events →
      (∀ e ∈ events, armsApk e = false) →
      (scan_url env url).1 = []) ∧
    (∀ (env : ScanEnv) (url html : String),
      env.fetch = .ok html →
      env.parse html = .ok
        [.starttag "a" [("href", some "x.apk")], .data "Foo", .endtag "a",
         .starttag "a" [("href", some "z.apk")], .data "Baz", .endtag "a"] →
      (scan_url env url).1 =
        [⟨"Foo", env.urljoin url "x.apk"⟩, ⟨"Baz", env.urljoin url "z.apk"⟩]) := by
  refine ⟨?_, ?_, ?_⟩
  · intro env url html h1 h2
    simp only [scan_url, h1, h2]
    rfl
  · intro env url html events h1 h2 hnone
    simp only [scan_url, h1, h2]
    show (scanEvents env.urljoin url events, "").1 = []
    simp only [scanEvents]
    rw [foldl_scanStep_fixed env.urljoin url events ⟨none, [], []⟩ rfl hnone]
  · intro env url html h1 h2
    simp only [scan_url, h1, h2]
    rfl

/-- Witness for C7 at concrete inputs. -/
theorem scan_url_apk_filter_witness :
    (scan_url twoAnchorEnv "http://s/").1 =
      [⟨"Foo", "http://s/" ++ "|" ++ "x.apk"⟩] ∧
    (scan_url txtOnlyEnv "http://s/").1 = [] ∧
    (scan_url twoApkEnv "http://s/").1 =
      [⟨"Foo", "http://s/" ++ "|" ++ "x.apk"⟩,
       ⟨"Baz", "http://s/" ++ "|" ++ "z.apk"⟩] :=
  ⟨scan_url_apk_filter.1 twoAnchorEnv "http://s/" "page" rfl rfl,
   scan_url_apk_filter.2.1 txtOnlyEnv "http://s/" "page"
     [.starttag "a" [("href", some "y.txt")], .data "Bar", .endtag "a"]
     rfl rfl (by decide),
   scan_url_apk_filter.2.2 twoApkEnv "http://s/" "page" rfl rfl⟩

/-! ### Claim C9 -/

/-- C9: for every `.apk` anchor whose collected text strips to the empty
string, the recorded entry name falls back to the basename of the href; on
the document with a single textless `app.apk` anchor the entry name is
`app.apk`. -/
theorem scan_url_basename_fallback :
    (∀ (uj : String → String → String) (url href : String)
        (texts : List String),
      isApkHref href = true →
      pyStrip (String.join texts) = "" →
      scanEvents uj url (HtmlEvent.starttag "a" [("href", some href)] ::
          (texts.map HtmlEvent.data ++ [HtmlEvent.endtag "a"])) =
        [⟨basename href, uj url href⟩]) ∧
    (∀ (env : ScanEnv) (url html : String),
      env.fetch = .ok html →
      env.parse html = .ok
        [.starttag "a" [("href", some "app.apk")], .endtag "a"] →
      (scan_url env url).1 = [⟨"app.apk", env.urljoin url "app.apk"⟩]) := by
  constructor
  · intro uj url href texts h1 h2
    simp only [scanEvents, List.foldl_cons,
      scanStep_starttag_apk uj url ⟨none, [], []⟩ href h1, List.foldl_append]
    rw [foldl_data_arm uj url href texts [] []]
    simp only [List.nil_append, List.foldl_cons, List.foldl_nil, scanStep,
      handleEndtag, strLower_a]
    simp [h2]
  · intro env url html h1 h2
    simp only [scan_url, h1, h2]
    rfl

/-- Witness for C9 at concrete inputs. -/
theorem scan_url_basename_fallback_witness :
    scanEvents (fun b h => b ++ "|" ++ h) "http://s/"
        (HtmlEvent.starttag "a" [("href", some "app.apk")] ::
          ([" ", "  "].map HtmlEvent.data ++ [HtmlEvent.endtag "a"])) =
      [⟨basename "app.apk", "http://s/" ++ "|" ++ "app.apk"⟩] ∧
    (scan_url emptyTextEnv "http://s/").1 =
      [⟨"app.apk", "http://s/" ++ "|" ++ "app.apk"⟩] :=
  ⟨scan_url_basename_fallback.1 (fun b h => b ++ "|" ++ h) "http://s/"
     "app.apk" [" ", "  "] (by decide) (by decide),
   scan_url_basename_fallback.2 emptyTextEnv "http://s/" "page" rfl rfl⟩

/-! ### Claim C1 -/

/-- C1 counterexample: with a session already active, a non-loopback
`connect` whose handshake fails still returns the failure result, yet the
prior session remains installed, so the very next `install_apk` does not
yield the `NoDevice` element — the claim is false for such prior states. -/
theorem connect_failure_claim_counterexample :
    (connect failHandshakeEnv "192.168.0.9" "k" connectedState).1 =
      "Connection failed: boom" ∧
    (install_apk okInstallEnv "http://s/x.apk"
        (connect failHandshakeEnv "192.168.0.9" "k" connectedState).2.1).1 ≠
      ["No device connected."] := by
  constructor
  · rfl
  · decide

/-- C1 (amended): a failing non-loopback `connect` returns the failure
result carrying the cause's message and installs no new session — the
device slot keeps its prior value; when no session was active before the
call, an `install_apk` started immediately afterwards yields only the
`NoDevice` element. -/
theorem connect_failure_no_session (env : ConnectEnv) (ip key e : String)
    (s : WorkerState)
    (hip : ip ≠ "127.0.0.1")
    (hfail : (connectAttempt env key s.fs).1 = .error e) :
    (connect env ip key s).1 = "Connection failed: " ++ e ∧
    (connect env ip key s).2.1.device = s.device ∧
    (s.device = none →
      ∀ (ienv : InstallEnv) (url : String),
        (install_apk ienv url (connect env ip key s).2.1).1 =
          ["No device connected."]) := by
  unfold connect
  rw [if_neg hip]
  simp only [hfail]
  refine ⟨trivial, trivial, ?_⟩
  intro hdev ienv url
  simp [install_apk, hdev]

/-- Witness for C1 (amended) at concrete inputs. -/
theorem connect_failure_no_session_witness :
    (connect failHandshakeEnv "192.168.0.9" "k" idleState).1 =
      "Connection failed: " ++ "boom" ∧
    (connect failHandshakeEnv "192.168.0.9" "k" idleState).2.1.device =
      idleState.device ∧
    (install_apk okInstallEnv "http://s/x.apk"
        (connect failHandshakeEnv "192.168.0.9" "k" idleState).2.1).1 =
      ["No device connected."] := by
  have h := connect_failure_no_session failHandshakeEnv "192.168.0.9" "k"
    "boom" idleState (by decide) rfl
  exact ⟨h.1, h.2.1, h.2.2 rfl okInstallEnv "http://s/x.apk"⟩

/-! ### Claim C6 -/

theorem append_pub_ne (s : String) : s ++ ".pub" ≠ s := by
  intro h
  have h2 := congrArg String.length h
  rw [String.length_append] at h2
  have h3 : (".pub" : String).length = 4 := by decide
  rw [h3] at h2
  omega

theorem FS.isdir_eq_of_dirs (a b : FS) (h : a.dirs = b.dirs) (p : String) :
    a.isdir p = b.isdir p := by
  simp [FS.isdir, h]

theorem FS.isdir_makedirs (fs : FS) (d key : String)
    (hstable : fs.isdir key = true ∨ d ≠ key) :
    (fs.makedirs d).isdir key = fs.isdir key := by
  simp only [FS.makedirs, FS.isdir, List.contains_cons]
  rcases hstable with h | h
  · simp only [FS.isdir] at h
    rw [h, Bool.or_true]
  · have hb : (key == d) = false := beq_eq_false_iff_ne.mpr (Ne.symm h)
    rw [hb, Bool.false_or]

/-- Second resolution against a filesystem that already holds both key
files at the resolved path: no keygen, identical reads. -/
theorem resolveCredentials_second (env2 : ConnectEnv) (key : String)
    (fs fsA : FS) (resolved priv pub : String)
    (h2 : env2.mkdirOutcome = .ok ())
    (hiso : fsA.isdir key = fs.isdir key)
    (hres : resolved = resolvedPathOf fs key)
    (hp : fsA.readFile resolved = some priv)
    (hq : fsA.readFile (resolved ++ ".pub") = some pub) :
    resolveCredentials env2 key fsA =
      .ok ⟨fsA.makedirs (madeDirOf fs key), resolved, false, priv, pub⟩ := by
  have hres2 : resolvedPathOf fsA key = resolved := by
    rw [hres]
    simp only [resolvedPathOf, hiso]
  have hmd2 : madeDirOf fsA key = madeDirOf fs key := by
    simp only [madeDirOf, hres2, hres]
  have hex2 : (fsA.makedirs (madeDirOf fs key)).pathExists resolved = true :=
    FS.pathExists_makedirs_of _ _ _ (FS.pathExists_of_readFile _ _ _ hp)
  simp only [resolveCredentials, resolve_key_path, h2, hres2, hmd2, hex2,
    FS.readFile_makedirs, hp, hq, if_true]

/-- C6: once a resolution succeeded, resolving again with the same path
regenerates nothing and reads back bit-identical key contents; moreover
keygen ran on the first call exactly when the resolved private-key file was
absent. The side condition rules out key paths such as `.` or `/` being
plain files, which cannot happen on a real filesystem where those paths are
always directories. -/
theorem resolveCredentials_idempotent (env1 env2 : ConnectEnv) (key : String)
    (fs : FS) (r1 : ResolveOut)
    (hstable : fs.isdir key = true ∨ madeDirOf fs key ≠ key)
    (h1 : resolveCredentials env1 key fs = .ok r1)
    (h2 : env2.mkdirOutcome = .ok ()) :
    r1.keygenRan =
      !((fs.makedirs (madeDirOf fs key)).pathExists (resolvedPathOf fs key)) ∧
    ∃ r2 : ResolveOut,
      resolveCredentials env2 key r1.fs = .ok r2 ∧
      r2.priv = r1.priv ∧ r2.pub = r1.pub ∧ r2.keygenRan = false := by
  cases hm1 : env1.mkdirOutcome with
  | error e =>
    simp [resolveCredentials, resolve_key_path, hm1] at h1
  | ok u =>
    cases hex : (fs.makedirs (madeDirOf fs key)).pathExists
        (resolvedPathOf fs key) with
    | true =>
      have hk : resolve_key_path env1 key fs =
          .ok (resolvedPathOf fs key, fs.makedirs (madeDirOf fs key), false) := by
        simp [resolve_key_path, hm1, hex]
      rw [resolveCredentials.eq_def, hk] at h1
      cases hp : (fs.makedirs (madeDirOf fs key)).readFile
          (resolvedPathOf fs key) with
      | none => simp [hp] at h1
      | some priv =>
        cases hq : (fs.makedirs (madeDirOf fs key)).readFile
            (resolvedPathOf fs key ++ ".pub") with
        | none => simp [hp, hq] at h1
        | some pub =>
          simp only [hp, hq] at h1
          injection h1 with h1
          subst h1
          refine ⟨by simp [hex], ?_⟩
          have hiso : (fs.makedirs (madeDirOf fs key)).isdir key = fs.isdir key :=
            FS.isdir_makedirs fs (madeDirOf fs key) key hstable
          exact ⟨_, resolveCredentials_second env2 key fs _
            (resolvedPathOf fs key) priv pub h2 hiso rfl hp hq, rfl, rfl, rfl⟩
    | false =>
      cases hkg : env1.keygenOutcome with
      | error e =>
        simp [resolveCredentials, resolve_key_path, hm1, hex, hkg] at h1
      | ok pk =>
        have hk : resolve_key_path env1 key fs =
            .ok (resolvedPathOf fs key,
              ((fs.makedirs (madeDirOf fs key)).writeFile
                  (resolvedPathOf fs key) pk.1).writeFile
                (resolvedPathOf fs key ++ ".pub") pk.2, true) := by
          simp [resolve_key_path, hm1, hex, hkg]
        have hpriv : (((fs.makedirs (madeDirOf fs key)).writeFile
            (resolvedPathOf fs key) pk.1).writeFile
              (resolvedPathOf fs key ++ ".pub") pk.2).readFile
            (resolvedPathOf fs key) = some pk.1 := by
          rw [FS.readFile_writeFile_ne _ _ _ _ (append_pub_ne _)]
          exact FS.readFile_writeFile_self _ _ _
        have hpub : (((fs.makedirs (madeDirOf fs key)).writeFile
            (resolvedPathOf fs key) pk.1).writeFile
              (resolvedPathOf fs key ++ ".pub") pk.2).readFile
            (resolvedPathOf fs key ++ ".pub") = some pk.2 :=
          FS.readFile_writeFile_self _ _ _
        rw [resolveCredentials.eq_def, hk] at h1
        simp only [hpriv, hpub] at h1
        injection h1 with h1
        subst h1
        refine ⟨by simp [hex], ?_⟩
        have hiso : (((fs.makedirs (madeDirOf fs key)).writeFile
            (resolvedPathOf fs key) pk.1).writeFile
              (resolvedPathOf fs key ++ ".pub") pk.2).isdir key =
            fs.isdir key := by
          exact (FS.isdir_eq_of_dirs _ (fs.makedirs (madeDirOf fs key)) rfl
            key).trans (FS.isdir_makedirs fs (madeDirOf fs key) key hstable)
        exact ⟨_, resolveCredentials_second env2 key fs _
          (resolvedPathOf fs key) pk.1 pk.2 h2 hiso rfl hpriv hpub,
          rfl, rfl, rfl⟩

/-- Witness for C6 at concrete inputs: an initially empty filesystem, so
the first resolution generates the keys and the second does not. -/
theorem resolveCredentials_idempotent_witness :
    (⟨⟨["."], [("k.pub", "GQ"), ("k", "GP")]⟩, "k", true, "GP", "GQ"⟩ :
        ResolveOut).keygenRan =
      !((FS.makedirs ⟨[], []⟩ (madeDirOf ⟨[], []⟩ "k")).pathExists
          (resolvedPathOf ⟨[], []⟩ "k")) ∧
    ∃ r2 : ResolveOut,
      resolveCredentials okConnectEnv "k"
          (⟨⟨["."], [("k.pub", "GQ"), ("k", "GP")]⟩, "k", true, "GP", "GQ"⟩ :
            ResolveOut).fs = .ok r2 ∧
      r2.priv = "GP" ∧ r2.pub = "GQ" ∧ r2.keygenRan = false :=
  resolveCredentials_idempotent okConnectEnv okConnectEnv "k" ⟨[], []⟩
    ⟨⟨["."], [("k.pub", "GQ"), ("k", "GP")]⟩, "k", true, "GP", "GQ"⟩
    (Or.inr (by decide)) rfl rfl

end Beamio
